import Mathlib

/-
  Verification development for the LD2412 serial-frame analyzer.

  The byte-stream core is embedded shallowly: bytes are `Nat` values,
  buffers are `List Nat`, and each Python function of the repository is
  translated into a Lean function of the same shape.

  Sources embedded here:
  - `ld2412_analyzer.py`   : `analyze_frames` (unbounded footer search),
    `parse_and_analyze_frame` (length guard 23, offsets 8..16, stats,
    pattern analysis over the trailing 10-sample windows), buffer
    truncation at high-water 1000 / low-water 500.
  - `ld2412_analyzer_cli.py` : `analyze_frames` (footer search bounded to
    50 bytes from the header), `parse_data_frame` (length guard 23,
    light value from offset 17 when the span is at least 21 bytes).
  - `ld2412_cli.py`        : `parse_data_frame` (light value read from
    offset 45 when the span is longer than 45 bytes).
  - `test_data_analysis.py`: `test_frame_parsing` (length guard 21,
    light value from offset 17 when the span is at least 19 bytes).
-/

namespace LD2412

/-- Telemetry frame header magic `F4 F3 F2 F1`. -/
def hdrMagic : List Nat := [244, 243, 242, 241]

/-- Telemetry frame footer magic `F8 F7 F6 F5`. -/
def ftrMagic : List Nat := [248, 247, 246, 245]

/-- Python slice `l[-n:]`: the trailing `n` elements (the whole list when shorter). -/
def takeLast {α : Type} (n : Nat) (l : List α) : List α :=
  l.drop (l.length - n)

/-- Append for `collections.deque(maxlen := cap)`: push `x`, keep the trailing `cap`. -/
def pushCap {α : Type} (cap : Nat) (l : List α) (x : α) : List α :=
  takeLast cap (l ++ [x])

/-- Little-endian 16-bit read `(frame[lo+1] << 8) | frame[lo]`. -/
def le16 (frame : List Nat) (lo : Nat) : Nat :=
  Nat.lor (Nat.shiftLeft (frame.getD (lo + 1) 0) 8) (frame.getD lo 0)

/-- Footer search of `analyze_frames`: try at most `w` start offsets
(`for j in range(i+8, stop)`), each needing a full 4-byte slice
(`stop` is `len(buffer)-3`).  On a hit, return the bytes up to and
including the footer together with the remainder of the buffer. -/
def findFooterSplit : Nat → List Nat → Option (List Nat × List Nat)
  | 0, _ => none
  | w + 1, f0 :: f1 :: f2 :: f3 :: rest =>
    if f0 = 248 ∧ f1 = 247 ∧ f2 = 246 ∧ f3 = 245 then
      some ([f0, f1, f2, f3], rest)
    else
      match findFooterSplit w (f1 :: f2 :: f3 :: rest) with
      | some (mid, rem) => some (f0 :: mid, rem)
      | none => none
  | _ + 1, _ => none

/-- Number of footer start offsets tried from a header at `i`: the
bounded variant (`ld2412_analyzer_cli.py`) stops at `min(i+50, len-3)`,
i.e. at most 42 offsets; the unbounded variant (`ld2412_analyzer.py`)
stops at `len-3` only, i.e. every offset where a 4-byte slice fits. -/
def footerTries (bounded : Bool) (rest : List Nat) : Nat :=
  if bounded then 42 else rest.length

/-- The `while i < len(buffer) - 7` scan loop of `analyze_frames`,
with the cursor position represented by the suffix of the buffer from
`i`.  On a header match the footer is searched from `i+8`; on a hit the
frame `buffer[i : j+4]` is emitted and the cursor jumps past it, else
the cursor slides by a single byte.  `fuel` bounds the number of loop
iterations (the cursor strictly advances, so `buffer.length` is enough). -/
def scanAux (bounded : Bool) : Nat → List Nat → List (List Nat)
  | 0, _ => []
  | fuel + 1, b0 :: b1 :: b2 :: b3 :: b4 :: b5 :: b6 :: b7 :: rest =>
    if b0 = 244 ∧ b1 = 243 ∧ b2 = 242 ∧ b3 = 241 then
      match findFooterSplit (footerTries bounded rest) rest with
      | some (mid, rem) =>
          (b0 :: b1 :: b2 :: b3 :: b4 :: b5 :: b6 :: b7 :: mid) ::
            scanAux bounded fuel rem
      | none => scanAux bounded fuel (b1 :: b2 :: b3 :: b4 :: b5 :: b6 :: b7 :: rest)
    else scanAux bounded fuel (b1 :: b2 :: b3 :: b4 :: b5 :: b6 :: b7 :: rest)
  | _ + 1, _ => []

/-- All telemetry frames found by one `analyze_frames` pass over `buffer`. -/
def scanFrames (bounded : Bool) (buffer : List Nat) : List (List Nat) :=
  scanAux bounded buffer.length buffer

/-- Buffer truncation at the end of `analyze_frames`:
`if len(raw_buffer) > hw: raw_buffer = raw_buffer[-lw:]`. -/
def truncateHW (hw lw : Nat) (b : List Nat) : List Nat :=
  if hw < b.length then b.drop (b.length - lw) else b

/-- Telemetry fields decoded by `parse_and_analyze_frame` of `ld2412_analyzer.py`. -/
structure TelemetryRecord where
  targetState : Nat
  movingDistance : Nat
  movingEnergy : Nat
  stillDistance : Nat
  stillEnergy : Nat
  detectionDistance : Nat
deriving DecidableEq

/-- Telemetry fields plus the light value, as decoded by
`test_data_analysis.py` and by `parse_data_frame` of `ld2412_analyzer_cli.py`
(both store a plain number, `0` when the frame is too short). -/
structure TelemetryRecordL where
  targetState : Nat
  movingDistance : Nat
  movingEnergy : Nat
  stillDistance : Nat
  stillEnergy : Nat
  detectionDistance : Nat
  lightValue : Nat
deriving DecidableEq

/-- Fields displayed by `parse_data_frame` of `ld2412_cli.py`; the light
value is shown only when the frame is longer than 45 bytes. -/
structure CliDisplay where
  targetState : Nat
  movingDistance : Nat
  movingEnergy : Nat
  stillDistance : Nat
  stillEnergy : Nat
  detectionDistance : Nat
  lightSensor : Option Nat
deriving DecidableEq

/-- The `stats` dictionary of `ld2412_analyzer.py`. -/
structure Stats where
  totalFrames : Nat
  movingDetections : Nat
  stillDetections : Nat
  noTarget : Nat
  maxDistance : Nat
  minDistance : Nat
deriving DecidableEq

/-- The `patterns` dictionary of `ld2412_analyzer.py`. -/
structure Patterns where
  approach : Nat
  leave : Nat
  stable : Nat
  noise : Nat
deriving DecidableEq

/-- Initial statistics (`min_distance` starts at the sentinel 9999). -/
def initStats : Stats := ⟨0, 0, 0, 0, 0, 9999⟩

/-- Initial pattern counters. -/
def initPatterns : Patterns := ⟨0, 0, 0, 0⟩

/-- Field extraction of `parse_and_analyze_frame` (`ld2412_analyzer.py`):
frames shorter than 23 bytes are dropped, else fixed offsets 8..16. -/
def parseFrameAnalyzer (frame : List Nat) : Option TelemetryRecord :=
  if frame.length < 23 then none
  else some
    { targetState := frame.getD 8 0
      movingDistance := le16 frame 9
      movingEnergy := frame.getD 11 0
      stillDistance := le16 frame 12
      stillEnergy := frame.getD 14 0
      detectionDistance := le16 frame 15 }

/-- Field extraction of `test_frame_parsing` (`test_data_analysis.py`):
the corrected minimum length 21, light from offset 17 when at least 19
bytes (else 0). -/
def parseFrameTest (frame : List Nat) : Option TelemetryRecordL :=
  if 21 ≤ frame.length then some
    { targetState := frame.getD 8 0
      movingDistance := le16 frame 9
      movingEnergy := frame.getD 11 0
      stillDistance := le16 frame 12
      stillEnergy := frame.getD 14 0
      detectionDistance := le16 frame 15
      lightValue := if 19 ≤ frame.length then frame.getD 17 0 else 0 }
  else none

/-- Field extraction of `parse_data_frame` (`ld2412_analyzer_cli.py`):
minimum length 23, light from offset 17 when at least 21 bytes (else 0). -/
def parseFrameCLI (frame : List Nat) : Option TelemetryRecordL :=
  if frame.length < 23 then none
  else some
    { targetState := frame.getD 8 0
      movingDistance := le16 frame 9
      movingEnergy := frame.getD 11 0
      stillDistance := le16 frame 12
      stillEnergy := frame.getD 14 0
      detectionDistance := le16 frame 15
      lightValue := if 21 ≤ frame.length then frame.getD 17 0 else 0 }

/-- Field extraction of `parse_data_frame` (`ld2412_cli.py`): fields are
displayed when at least 23 bytes, and the light value is read from
offset 45 when the frame is longer than 45 bytes. -/
def parseFrameLd2412Cli (frame : List Nat) : Option CliDisplay :=
  if frame.length < 23 then none
  else some
    { targetState := frame.getD 8 0
      movingDistance := le16 frame 9
      movingEnergy := frame.getD 11 0
      stillDistance := le16 frame 12
      stillEnergy := frame.getD 14 0
      detectionDistance := le16 frame 15
      lightSensor := if 45 < frame.length then some (frame.getD 45 0) else none }

/-- The statistics update of `parse_and_analyze_frame`
(`ld2412_analyzer.py`, lines 320-334; identically `update_statistics`
of `ld2412_analyzer_cli.py` on these fields). -/
def updateStatistics (s : Stats) (r : TelemetryRecord) : Stats :=
  let s1 := { s with totalFrames := s.totalFrames + 1 }
  let s2 :=
    if r.targetState &&& 1 ≠ 0 then
      let sm :=
        if r.targetState &&& 2 ≠ 0 then
          { s1 with movingDetections := s1.movingDetections + 1 }
        else s1
      if r.targetState &&& 4 ≠ 0 then
        { sm with stillDetections := sm.stillDetections + 1 }
      else sm
    else { s1 with noTarget := s1.noTarget + 1 }
  if 0 < r.detectionDistance then
    { s2 with
        maxDistance := max s2.maxDistance r.detectionDistance
        minDistance := min s2.minDistance r.detectionDistance }
  else s2

/-- Python `sum(1 for i in range(1, len(l)) if l[i] != l[i-1])`. -/
def countAdjChanges : List Nat → Nat
  | a :: b :: t => (if b ≠ a then 1 else 0) + countAdjChanges (b :: t)
  | _ => 0

/-- Behavior analysis `analyze_patterns` of `ld2412_analyzer.py`: with fewer than 10
stored distances nothing happens; otherwise the trailing 10 distances
drive the approach/leave/stable counters (only when all 10 are
positive) and the trailing 10 target states drive the noise counter. -/
def analyzePatterns (distHist stateHist : List Nat) (p : Patterns) : Patterns :=
  if distHist.length < 10 then p
  else
    let recentD := takeLast 10 distHist
    let recentS := takeLast 10 stateHist
    let p1 :=
      if recentD.all (fun d => decide (0 < d)) then
        let diff : Int := (recentD.getLastD 0 : Int) - (recentD.headD 0 : Int)
        if diff < -50 then { p with approach := p.approach + 1 }
        else if 50 < diff then { p with leave := p.leave + 1 }
        else { p with stable := p.stable + 1 }
      else p
    if 5 < countAdjChanges recentS then { p1 with noise := p1.noise + 1 } else p1

/-- Mutable session state of `LD2412Analyzer`: the raw byte buffer, the
record history (the parallel `deque(maxlen=100)` columns, stored here as
one list of records), the statistics and the pattern counters. -/
structure AnalyzerState where
  rawBuffer : List Nat
  history : List TelemetryRecord
  stats : Stats
  patterns : Patterns
deriving DecidableEq

/-- Fresh session state. -/
def initState : AnalyzerState := ⟨[], [], initStats, initPatterns⟩

/-- The per-record tail of `parse_and_analyze_frame`: push into the
history, update the statistics, run `analyze_patterns` over the updated
history windows. -/
def pushRecord (st : AnalyzerState) (r : TelemetryRecord) : AnalyzerState :=
  let history := pushCap 100 st.history r
  { st with
      history := history
      stats := updateStatistics st.stats r
      patterns := analyzePatterns (history.map TelemetryRecord.detectionDistance)
        (history.map TelemetryRecord.targetState) st.patterns }

/-- The whole `parse_and_analyze_frame` applied to one located frame span. -/
def processFrame (st : AnalyzerState) (frame : List Nat) : AnalyzerState :=
  match parseFrameAnalyzer frame with
  | some r => pushRecord st r
  | none => st

/-- One `process_received_data` call of `ld2412_analyzer.py`: extend the
raw buffer, scan it from index 0 (unbounded footer search), process each
located frame, then truncate the buffer at high-water 1000 to its
trailing 500 bytes. -/
def feed (st : AnalyzerState) (chunk : List Nat) : AnalyzerState :=
  let buf := st.rawBuffer ++ chunk
  let st1 := (scanFrames false buf).foldl processFrame { st with rawBuffer := buf }
  { st1 with rawBuffer := truncateHW 1000 500 st1.rawBuffer }

/-- A whole monitoring session: feed the chunks in order to a fresh state. -/
def runPipeline (chunks : List (List Nat)) : AnalyzerState :=
  chunks.foldl feed initState

/-- The 22-byte telemetry frame of the exact-decode property
(`F4 F3 F2 F1 0B 00 02 AA 03 78 00 55 96 00 40 78 00 10 F8 F7 F6 F5`). -/
def c1bytes : List Nat :=
  [244, 243, 242, 241, 11, 0, 2, 170, 3, 120, 0, 85, 150, 0, 64, 120, 0, 16,
   248, 247, 246, 245]

/-- A 21-byte telemetry span (header, length/type/check, the six
mandatory value bytes, footer). -/
def c2span : List Nat :=
  [244, 243, 242, 241, 5, 0, 2, 170, 3, 120, 0, 85, 150, 0, 64, 120, 0,
   248, 247, 246, 245]

/-- A well-formed 23-byte telemetry frame (the exact-decode frame padded
with two zero bytes before the footer), long enough for every decoder
variant. -/
def goodFrame23 : List Nat :=
  [244, 243, 242, 241, 11, 0, 2, 170, 3, 120, 0, 85, 150, 0, 64, 120, 0, 16,
   0, 248, 247, 246, 245]

/-! ### Scanner lemmas -/

theorem scanAux_short (bd : Bool) (fuel : Nat) (l : List Nat) (h : l.length < 8) :
    scanAux bd fuel l = [] := by
  cases fuel with
  | zero => rfl
  | succ fuel =>
    rcases l with _ | ⟨b0, l⟩; · rfl
    rcases l with _ | ⟨b1, l⟩; · rfl
    rcases l with _ | ⟨b2, l⟩; · rfl
    rcases l with _ | ⟨b3, l⟩; · rfl
    rcases l with _ | ⟨b4, l⟩; · rfl
    rcases l with _ | ⟨b5, l⟩; · rfl
    rcases l with _ | ⟨b6, l⟩; · rfl
    rcases l with _ | ⟨b7, l⟩; · rfl
    simp only [List.length_cons] at h
    omega

theorem scanAux_cons_ne (bd : Bool) (fuel : Nat) (b0 b1 b2 b3 b4 b5 b6 b7 : Nat)
    (rest : List Nat) (h : ¬(b0 = 244 ∧ b1 = 243 ∧ b2 = 242 ∧ b3 = 241)) :
    scanAux bd (fuel + 1) (b0 :: b1 :: b2 :: b3 :: b4 :: b5 :: b6 :: b7 :: rest) =
      scanAux bd fuel (b1 :: b2 :: b3 :: b4 :: b5 :: b6 :: b7 :: rest) := by
  simp only [scanAux]
  rw [if_neg h]

theorem scanAux_hdr_none (bd : Bool) (fuel : Nat) (b4 b5 b6 b7 : Nat) (rest : List Nat)
    (h : findFooterSplit (footerTries bd rest) rest = none) :
    scanAux bd (fuel + 1) (244 :: 243 :: 242 :: 241 :: b4 :: b5 :: b6 :: b7 :: rest) =
      scanAux bd fuel (243 :: 242 :: 241 :: b4 :: b5 :: b6 :: b7 :: rest) := by
  simp only [scanAux]
  rw [if_pos (by simp), h]

theorem scanAux_hdr_some (bd : Bool) (fuel : Nat) (b4 b5 b6 b7 : Nat)
    (rest mid rem : List Nat)
    (h : findFooterSplit (footerTries bd rest) rest = some (mid, rem)) :
    scanAux bd (fuel + 1) (244 :: 243 :: 242 :: 241 :: b4 :: b5 :: b6 :: b7 :: rest) =
      (244 :: 243 :: 242 :: 241 :: b4 :: b5 :: b6 :: b7 :: mid) ::
        scanAux bd fuel rem := by
  simp only [scanAux]
  rw [if_pos (by simp), h]

theorem take4_ne_of_head (a : Nat) (l : List Nat) (h : a ≠ 244) :
    List.take 4 (a :: l) ≠ hdrMagic := by
  intro hc
  rw [List.take_succ_cons, hdrMagic] at hc
  injection hc with h1 _
  exact h h1

theorem scanAux_step_ne (bd : Bool) (fuel : Nat) (a : Nat) (l : List Nat)
    (h : List.take 4 (a :: l) ≠ hdrMagic) :
    scanAux bd (fuel + 1) (a :: l) = scanAux bd fuel l := by
  rcases l with _ | ⟨b1, l⟩
  · rw [scanAux_short bd _ _ (by simp), scanAux_short bd _ _ (by simp)]
  rcases l with _ | ⟨b2, l⟩
  · rw [scanAux_short bd _ _ (by simp), scanAux_short bd _ _ (by simp)]
  rcases l with _ | ⟨b3, l⟩
  · rw [scanAux_short bd _ _ (by simp), scanAux_short bd _ _ (by simp)]
  rcases l with _ | ⟨b4, l⟩
  · rw [scanAux_short bd _ _ (by simp), scanAux_short bd _ _ (by simp)]
  rcases l with _ | ⟨b5, l⟩
  · rw [scanAux_short bd _ _ (by simp), scanAux_short bd _ _ (by simp)]
  rcases l with _ | ⟨b6, l⟩
  · rw [scanAux_short bd _ _ (by simp), scanAux_short bd _ _ (by simp)]
  rcases l with _ | ⟨b7, l⟩
  · rw [scanAux_short bd _ _ (by simp), scanAux_short bd _ _ (by simp)]
  apply scanAux_cons_ne
  rintro ⟨rfl, rfl, rfl, rfl⟩
  exact h rfl

theorem scanAux_skip (bd : Bool) (pre : List Nat) :
    ∀ (l2 : List Nat) (g : Nat),
    (∀ k, k < pre.length → List.take 4 (List.drop k (pre ++ l2)) ≠ hdrMagic) →
    scanAux bd (pre.length + g) (pre ++ l2) = scanAux bd g l2 := by
  induction pre with
  | nil => intro l2 g _; simp
  | cons a pre ih =>
    intro l2 g h
    have h0 : List.take 4 (a :: (pre ++ l2)) ≠ hdrMagic := by
      have := h 0 (by simp)
      simpa using this
    have hlen : (a :: pre).length + g = (pre.length + g) + 1 := by
      simp only [List.length_cons]; omega
    rw [List.cons_append, hlen, scanAux_step_ne bd (pre.length + g) a (pre ++ l2) h0]
    exact ih l2 g (fun k hk => by
      have := h (k + 1) (by simp only [List.length_cons]; omega)
      simpa using this)

theorem ffs_none : ∀ (w : Nat) (l : List Nat),
    (∀ k, k < l.length → List.take 4 (List.drop k l) ≠ ftrMagic) →
    findFooterSplit w l = none := by
  intro w
  induction w with
  | zero => intro l _; rfl
  | succ w ih =>
    intro l h
    rcases l with _ | ⟨f0, l⟩; · rfl
    rcases l with _ | ⟨f1, l⟩; · rfl
    rcases l with _ | ⟨f2, l⟩; · rfl
    rcases l with _ | ⟨f3, l⟩; · rfl
    have hcond : ¬(f0 = 248 ∧ f1 = 247 ∧ f2 = 246 ∧ f3 = 245) := by
      rintro ⟨rfl, rfl, rfl, rfl⟩
      exact h 0 (by simp) rfl
    have hrec : findFooterSplit w (f1 :: f2 :: f3 :: l) = none := by
      apply ih
      intro k hk
      have := h (k + 1) (by simp only [List.length_cons] at hk ⊢; omega)
      simpa using this
    simp only [findFooterSplit]
    rw [if_neg hcond, hrec]

theorem ffs_append_none : ∀ (w : Nat) (l l2 : List Nat),
    findFooterSplit w l = none → w + 3 ≤ l.length →
    findFooterSplit w (l ++ l2) = none := by
  intro w
  induction w with
  | zero => intro l l2 _ _; rfl
  | succ w ih =>
    intro l l2 hnone hlen
    rcases l with _ | ⟨f0, l⟩; · simp at hlen
    rcases l with _ | ⟨f1, l⟩; · simp at hlen
    rcases l with _ | ⟨f2, l⟩; · simp at hlen
    rcases l with _ | ⟨f3, l⟩; · simp at hlen
    simp only [findFooterSplit] at hnone ⊢
    by_cases hc : f0 = 248 ∧ f1 = 247 ∧ f2 = 246 ∧ f3 = 245
    · rw [if_pos hc] at hnone
      exact absurd hnone (by simp)
    · rw [if_neg hc] at hnone ⊢
      cases hinner : findFooterSplit w (f1 :: f2 :: f3 :: l) with
      | some p =>
        rw [hinner] at hnone
        obtain ⟨mid, rem⟩ := p
        simp at hnone
      | none =>
        have hgrow := ih (f1 :: f2 :: f3 :: l) l2 hinner
          (by simp only [List.length_cons] at hlen ⊢; omega)
        rw [show (f1 :: f2 :: f3 :: l) ++ l2 = f1 :: f2 :: f3 :: (l ++ l2) by simp] at hgrow
        simp only [List.append_eq]
        rw [hgrow]

/-! ### Buffer and statistics lemmas -/

theorem processFrame_rawBuffer (st : AnalyzerState) (f : List Nat) :
    (processFrame st f).rawBuffer = st.rawBuffer := by
  rcases h : parseFrameAnalyzer f with _ | r <;> simp [processFrame, pushRecord, h]

theorem foldl_processFrame_rawBuffer (frames : List (List Nat)) :
    ∀ st : AnalyzerState, (frames.foldl processFrame st).rawBuffer = st.rawBuffer := by
  induction frames with
  | nil => intro st; rfl
  | cons f fs ih =>
    intro st
    rw [List.foldl_cons, ih, processFrame_rawBuffer]

theorem feed_rawBuffer (st : AnalyzerState) (c : List Nat) :
    (feed st c).rawBuffer = truncateHW 1000 500 (st.rawBuffer ++ c) := by
  simp [feed, foldl_processFrame_rawBuffer]

theorem truncateHW_length_le (hw lw : Nat) (hle : lw ≤ hw) (b : List Nat) :
    (truncateHW hw lw b).length ≤ hw := by
  unfold truncateHW
  split
  · simp only [List.length_drop]; omega
  · omega

theorem foldl_feed_length_le (chunks : List (List Nat)) :
    ∀ st : AnalyzerState, st.rawBuffer.length ≤ 1000 →
      (chunks.foldl feed st).rawBuffer.length ≤ 1000 := by
  induction chunks with
  | nil => intro st h; exact h
  | cons c cs ih =>
    intro st _
    rw [List.foldl_cons]
    apply ih
    rw [feed_rawBuffer]
    exact truncateHW_length_le 1000 500 (by omega) _

theorem updateStatistics_minDistance (s : Stats) (r : TelemetryRecord) :
    (updateStatistics s r).minDistance =
      if 0 < r.detectionDistance then min s.minDistance r.detectionDistance
      else s.minDistance := by
  unfold updateStatistics
  split_ifs <;> rfl

theorem foldl_update_minDistance (rs : List TelemetryRecord) :
    ∀ s : Stats, (rs.foldl updateStatistics s).minDistance =
      List.foldl min s.minDistance
        ((rs.map TelemetryRecord.detectionDistance).filter (fun d => decide (0 < d))) := by
  induction rs with
  | nil => intro s; rfl
  | cons r rs ih =>
    intro s
    rw [List.foldl_cons, ih, List.map_cons]
    rw [updateStatistics_minDistance]
    by_cases h : 0 < r.detectionDistance
    · simp [List.filter_cons, h]
    · simp [List.filter_cons, h]

theorem foldl_min_le (l : List Nat) : ∀ m : Nat, List.foldl min m l ≤ m := by
  induction l with
  | nil => intro m; simp
  | cons a l ih =>
    intro m
    rw [List.foldl_cons]
    exact le_trans (ih (min m a)) (min_le_left m a)

/-- The difference `recent_distances[-1] - recent_distances[0]` over the trailing-10 window. -/
def trendDelta (dh : List Nat) : Int :=
  ((takeLast 10 dh).getLastD 0 : Int) - ((takeLast 10 dh).headD 0 : Int)

/-- Ten positive detection distances strictly decreasing from 200 cm to
100 cm, as records with a moving-presence target state. -/
def c5records : List TelemetryRecord :=
  [200, 190, 180, 170, 160, 150, 140, 130, 120, 100].map
    (fun d => { targetState := 3, movingDistance := d, movingEnergy := 50,
                stillDistance := d, stillEnergy := 40, detectionDistance := d })

/-- The distance window of the strictly decreasing scenario. -/
def c5dh : List Nat := [200, 190, 180, 170, 160, 150, 140, 130, 120, 100]

/-- A 10-sample window containing a non-positive sample. -/
def c5dh0 : List Nat := [0, 190, 180, 170, 160, 150, 140, 130, 120, 100]

/-- A 46-byte frame span whose byte 17 is 7 and whose byte 45 is 99. -/
def c7frame : List Nat :=
  (List.range 46).map (fun i => if i = 45 then 99 else if i = 17 then 7 else 0)

/-! ### Claim theorems -/

/-- C1: the 22-byte sequence `F4 F3 F2 F1 0B 00 02 AA 03 78 00 55 96 00 40
78 00 10 F8 F7 F6 F5` is located as a single frame by the scanner, but the
pipeline decoder (`parse_and_analyze_frame`, minimum length 23) drops it, so
the pipeline produces no record at all; the repository's own corrected
decoder (`test_data_analysis.py`, minimum length 21) decodes it to exactly
targetState 3, movingDistance 120, movingEnergy 85, stillDistance 150,
stillEnergy 64, detectionDistance 120, light 16 — the record the claim
states.  The pipeline therefore contradicts the claim and the repository's
own test, which calls the minimum of 23 a bug. -/
theorem c1_exact_decode_dropped_by_pipeline :
    scanFrames false c1bytes = [c1bytes] ∧
    parseFrameAnalyzer c1bytes = none ∧
    (runPipeline [c1bytes]).stats.totalFrames = 0 ∧
    (runPipeline [c1bytes]).history = [] ∧
    parseFrameTest c1bytes = some ⟨3, 120, 85, 150, 64, 120, 16⟩ := by
  decide

/-- C2: under the corrected decoder of `test_data_analysis.py` a telemetry
span decodes exactly when it is at least 21 bytes long, as the claim states;
but the pipeline decoder (`parse_and_analyze_frame`) requires 23 bytes, so
the 21-byte span `c2span` (and any 21- or 22-byte span) is dropped by the
code, contradicting the claim's `iff`. -/
theorem c2_min_length_mismatch :
    (∀ span : List Nat, (parseFrameTest span).isSome = true ↔ 21 ≤ span.length) ∧
    21 ≤ c2span.length ∧ c2span.length < 23 ∧
    parseFrameAnalyzer c2span = none ∧
    (parseFrameTest c2span).isSome = true := by
  refine ⟨?_, by decide, by decide, by decide, by decide⟩
  intro span
  unfold parseFrameTest
  split <;> simp_all

/-- C3: against any chunk sequence whose bytes never form a valid frame,
the raw buffer's length is at most the high-water mark 1000 after every
feed completes; and whenever a feed pushes the buffer past 1000 bytes it
is cut back to its trailing 500-byte suffix, discarding only the oldest
(front) bytes. -/
theorem c3_buffer_bounded (chunks : List (List Nat))
    (hnoframe : ∀ k, k < chunks.length →
      scanFrames false
        ((runPipeline (chunks.take k)).rawBuffer ++ chunks.getD k []) = []) :
    (∀ k : Nat, (runPipeline (chunks.take k)).rawBuffer.length ≤ 1000) ∧
    (∀ (st : AnalyzerState) (c : List Nat), 1000 < (st.rawBuffer ++ c).length →
      (feed st c).rawBuffer =
        (st.rawBuffer ++ c).drop ((st.rawBuffer ++ c).length - 500)) := by
  constructor
  · intro k
    exact foldl_feed_length_le (chunks.take k) initState (by decide)
  · intro st c h
    rw [feed_rawBuffer]
    unfold truncateHW
    rw [if_pos h]

/-- C3 witness: a concrete garbage chunk sequence never forming a frame. -/
theorem c3_buffer_bounded_witness :
    (runPipeline ([[1, 2, 3]].take 1)).rawBuffer.length ≤ 1000 :=
  (c3_buffer_bounded [[1, 2, 3]] (by decide)).1 1

/-- C5: whenever the trailing-10 distance window exists (at least 10
stored distances) and all 10 samples are positive, exactly one of the
approach/leave/stable counters is incremented, chosen by the delta
between the last and first window samples (approach below -50, leave
above 50, stable otherwise); a window containing a non-positive sample
increments none of the three; and a fresh instance fed 10 positive
detection distances strictly decreasing from 200 to 100 cm ends with
approach incremented exactly once and leave and stable untouched. -/
theorem c5_trend_classification :
    (∀ (dh sh : List Nat) (p : Patterns), 10 ≤ dh.length →
      (takeLast 10 dh).all (fun d => decide (0 < d)) = true →
      ((analyzePatterns dh sh p).approach =
        p.approach + (if trendDelta dh < -50 then 1 else 0)) ∧
      ((analyzePatterns dh sh p).leave =
        p.leave + (if 50 < trendDelta dh then 1 else 0)) ∧
      ((analyzePatterns dh sh p).stable =
        p.stable + (if -50 ≤ trendDelta dh ∧ trendDelta dh ≤ 50 then 1 else 0)) ∧
      (analyzePatterns dh sh p).approach + (analyzePatterns dh sh p).leave +
          (analyzePatterns dh sh p).stable =
        p.approach + p.leave + p.stable + 1) ∧
    (∀ (dh sh : List Nat) (p : Patterns), 10 ≤ dh.length →
      (takeLast 10 dh).all (fun d => decide (0 < d)) = false →
      (analyzePatterns dh sh p).approach = p.approach ∧
      (analyzePatterns dh sh p).leave = p.leave ∧
      (analyzePatterns dh sh p).stable = p.stable) ∧
    ((c5records.foldl pushRecord initState).patterns.approach = 1 ∧
     (c5records.foldl pushRecord initState).patterns.leave = 0 ∧
     (c5records.foldl pushRecord initState).patterns.stable = 0) := by
  refine ⟨?_, ?_, by decide⟩
  · intro dh sh p hlen hall
    simp only [analyzePatterns, trendDelta]
    rw [if_neg (by omega), hall]
    split_ifs <;> simp_all <;> omega
  · intro dh sh p hlen hall
    simp only [analyzePatterns]
    rw [if_neg (by omega), hall]
    split_ifs <;> simp_all

/-- C5 witness: the strictly decreasing window triggers the approach
branch, and a window with a non-positive sample changes nothing. -/
theorem c5_trend_classification_witness :
    ((analyzePatterns c5dh c5dh initPatterns).approach =
      initPatterns.approach + (if trendDelta c5dh < -50 then 1 else 0)) ∧
    (analyzePatterns c5dh0 c5dh0 initPatterns).approach = initPatterns.approach :=
  ⟨((c5_trend_classification.1 c5dh c5dh initPatterns (by decide) (by decide)).1),
   ((c5_trend_classification.2.1 c5dh0 c5dh0 initPatterns (by decide) (by decide)).1)⟩

/-- C6 counterexample: a record with targetState 2 (bit1 set, bit0 clear)
does not increment the moving-detection count, because the code nests the
bit1 test inside a bit0 test; the claim's "exactly when bit1 is set" is
false. -/
theorem c6_counterexample_moving_needs_presence :
    ¬ (∀ (s : Stats) (r : TelemetryRecord), r.targetState &&& 2 ≠ 0 →
        (updateStatistics s r).movingDetections = s.movingDetections + 1) := by
  intro h
  exact absurd (h initStats ⟨2, 0, 0, 0, 0, 0⟩ (by decide)) (by decide)

/-- C6 amended: the statistics update increments the total-frame count
unconditionally; increments the moving-detection count exactly when bits 0
and 1 of targetState are both set; increments the still-detection count
exactly when bits 0 and 2 are both set; increments the no-target count
exactly when bit 0 is clear; and updates (else leaves unchanged) min/max
detection distance exactly when detectionDistance is positive. -/
theorem c6_statistics_update (s : Stats) (r : TelemetryRecord) :
    (updateStatistics s r).totalFrames = s.totalFrames + 1 ∧
    (updateStatistics s r).movingDetections = s.movingDetections +
      (if r.targetState &&& 1 ≠ 0 ∧ r.targetState &&& 2 ≠ 0 then 1 else 0) ∧
    (updateStatistics s r).stillDetections = s.stillDetections +
      (if r.targetState &&& 1 ≠ 0 ∧ r.targetState &&& 4 ≠ 0 then 1 else 0) ∧
    (updateStatistics s r).noTarget = s.noTarget +
      (if r.targetState &&& 1 = 0 then 1 else 0) ∧
    (updateStatistics s r).minDistance =
      (if 0 < r.detectionDistance then min s.minDistance r.detectionDistance
       else s.minDistance) ∧
    (updateStatistics s r).maxDistance =
      (if 0 < r.detectionDistance then max s.maxDistance r.detectionDistance
       else s.maxDistance) := by
  unfold updateStatistics
  split_ifs <;> simp_all

/-- C4: a buffer beginning with the telemetry header magic followed by
100 bytes containing no header and no footer magic yields zero frames
under the bounded-window scan — at the false header position nothing is
emitted and the cursor advances by exactly one byte (first conjunct, as a
general equation on the scan step) — and a well-formed 23-byte frame
appended after those bytes is still matched by the scanner and decoded by
the decoder. -/
theorem c4_resync_false_header (junk : List Nat) (hlen : junk.length = 100)
    (hhdr : ∀ k, k < junk.length → List.take 4 (List.drop k junk) ≠ hdrMagic)
    (hftr : ∀ k, k < junk.length → List.take 4 (List.drop k junk) ≠ ftrMagic) :
    (∀ (fuel b4 b5 b6 b7 : Nat) (rest : List Nat),
        findFooterSplit 42 rest = none →
        scanAux true (fuel + 1)
            (244 :: 243 :: 242 :: 241 :: b4 :: b5 :: b6 :: b7 :: rest) =
          scanAux true fuel (243 :: 242 :: 241 :: b4 :: b5 :: b6 :: b7 :: rest)) ∧
    scanFrames true (hdrMagic ++ junk) = [] ∧
    scanFrames true (hdrMagic ++ junk ++ goodFrame23) = [goodFrame23] ∧
    parseFrameCLI goodFrame23 = some ⟨3, 120, 85, 150, 64, 120, 16⟩ := by
  have hftr4 : ∀ k, k < (junk.drop 4).length →
      List.take 4 (List.drop k (junk.drop 4)) ≠ ftrMagic := by
    intro k hk
    rw [List.drop_drop]
    exact hftr (4 + k) (by simp only [List.length_drop] at hk; omega)
  have hffs : findFooterSplit 42 (junk.drop 4) = none := ffs_none 42 _ hftr4
  have hffs3 : findFooterSplit 42 (junk.drop 4 ++ goodFrame23) = none :=
    ffs_append_none 42 _ _ hffs (by simp only [List.length_drop]; omega)
  rcases junk with _ | ⟨j0, junk⟩; · simp at hlen
  rcases junk with _ | ⟨j1, junk⟩; · simp at hlen
  rcases junk with _ | ⟨j2, junk⟩; · simp at hlen
  rcases junk with _ | ⟨j3, junk⟩; · simp at hlen
  have hlen96 : junk.length = 96 := by
    simp only [List.length_cons] at hlen; omega
  have hffs2 : findFooterSplit (footerTries true junk) junk = none := hffs
  have hffs4 : findFooterSplit (footerTries true (junk ++ goodFrame23))
      (junk ++ goodFrame23) = none := hffs3
  refine ⟨?_, ?_, ?_, by decide⟩
  · intro fuel b4 b5 b6 b7 rest hf
    exact scanAux_hdr_none true fuel b4 b5 b6 b7 rest hf
  · unfold scanFrames
    have hL : (hdrMagic ++ (j0 :: j1 :: j2 :: j3 :: junk)).length = 104 := by
      simp only [List.length_append, List.length_cons, List.length_nil, hdrMagic, hlen96]
    rw [hL]
    show scanAux true 104 (244 :: 243 :: 242 :: 241 :: j0 :: j1 :: j2 :: j3 :: junk) = []
    rw [show (104 : Nat) = 103 + 1 from rfl,
      scanAux_hdr_none true 103 j0 j1 j2 j3 junk hffs2]
    have hnoH : ∀ k, k < (243 :: 242 :: 241 :: j0 :: j1 :: j2 :: j3 :: junk).length →
        List.take 4 (List.drop k ((243 :: 242 :: 241 :: j0 :: j1 :: j2 :: j3 :: junk) ++ [])) ≠
          hdrMagic := by
      intro k hk
      rw [List.append_nil]
      rcases k with _ | ⟨_ | ⟨_ | k⟩⟩
      · exact take4_ne_of_head 243 _ (by decide)
      · exact take4_ne_of_head 242 _ (by decide)
      · exact take4_ne_of_head 241 _ (by decide)
      · show List.take 4 (List.drop k (j0 :: j1 :: j2 :: j3 :: junk)) ≠ hdrMagic
        exact hhdr k (by simp only [List.length_cons] at hk ⊢; omega)
    have hskip := scanAux_skip true (243 :: 242 :: 241 :: j0 :: j1 :: j2 :: j3 :: junk) [] 0 hnoH
    rw [List.append_nil] at hskip
    have h103 : (243 :: 242 :: 241 :: j0 :: j1 :: j2 :: j3 :: junk).length + 0 = 103 := by
      simp only [List.length_cons, hlen96]
    rw [h103] at hskip
    exact hskip
  · unfold scanFrames
    have hL3 : (hdrMagic ++ (j0 :: j1 :: j2 :: j3 :: junk) ++ goodFrame23).length = 127 := by
      simp only [List.length_append, List.length_cons, List.length_nil, hdrMagic,
        goodFrame23, hlen96]
    rw [hL3]
    show scanAux true 127
        (244 :: 243 :: 242 :: 241 :: j0 :: j1 :: j2 :: j3 :: (junk ++ goodFrame23)) =
      [goodFrame23]
    rw [show (127 : Nat) = 126 + 1 from rfl,
      scanAux_hdr_none true 126 j0 j1 j2 j3 (junk ++ goodFrame23) hffs4]
    have hnoH3 : ∀ k, k < (243 :: 242 :: 241 :: j0 :: j1 :: j2 :: j3 :: junk).length →
        List.take 4 (List.drop k
          ((243 :: 242 :: 241 :: j0 :: j1 :: j2 :: j3 :: junk) ++ goodFrame23)) ≠
          hdrMagic := by
      intro k hk
      rcases k with _ | ⟨_ | ⟨_ | k⟩⟩
      · exact take4_ne_of_head 243 _ (by decide)
      · exact take4_ne_of_head 242 _ (by decide)
      · exact take4_ne_of_head 241 _ (by decide)
      · show List.take 4 (List.drop k ((j0 :: j1 :: j2 :: j3 :: junk) ++ goodFrame23)) ≠
          hdrMagic
        have hk100 : k < 100 := by
          simp only [List.length_cons, hlen96] at hk; omega
        rw [List.drop_append_of_le_length (by simp only [List.length_cons, hlen96]; omega)]
        by_cases hcase : k ≤ 96
        · rw [List.take_append_of_le_length
            (by simp only [List.length_drop, List.length_cons, hlen96]; omega)]
          exact hhdr k (by simp only [List.length_cons, hlen96]; omega)
        · have h97 : 97 ≤ k := by omega
          interval_cases k
          · obtain ⟨a, b, c, habc⟩ := List.length_eq_three.mp
              (show (List.drop 97 (j0 :: j1 :: j2 :: j3 :: junk)).length = 3 by
                simp only [List.length_drop, List.length_cons, hlen96])
            rw [habc]
            simp [goodFrame23, hdrMagic]
          · obtain ⟨a, b, habc⟩ := List.length_eq_two.mp
              (show (List.drop 98 (j0 :: j1 :: j2 :: j3 :: junk)).length = 2 by
                simp only [List.length_drop, List.length_cons, hlen96])
            rw [habc]
            simp [goodFrame23, hdrMagic]
          · obtain ⟨a, habc⟩ := List.length_eq_one.mp
              (show (List.drop 99 (j0 :: j1 :: j2 :: j3 :: junk)).length = 1 by
                simp only [List.length_drop, List.length_cons, hlen96])
            rw [habc]
            simp [goodFrame23, hdrMagic]
    have hskip := scanAux_skip true (243 :: 242 :: 241 :: j0 :: j1 :: j2 :: j3 :: junk)
      goodFrame23 23 hnoH3
    have h126 : (243 :: 242 :: 241 :: j0 :: j1 :: j2 :: j3 :: junk).length + 23 = 126 := by
      simp only [List.length_cons, hlen96]
    rw [h126] at hskip
    exact hskip.trans (by decide)

/-- C4 witness: 100 junk bytes of value 17 after a header magic. -/
theorem c4_resync_false_header_witness :
    scanFrames true (hdrMagic ++ List.replicate 100 17) = [] ∧
    scanFrames true (hdrMagic ++ List.replicate 100 17 ++ goodFrame23) = [goodFrame23] :=
  ⟨(c4_resync_false_header (List.replicate 100 17) (by decide) (by decide) (by decide)).2.1,
   (c4_resync_false_header (List.replicate 100 17) (by decide) (by decide) (by decide)).2.2.1⟩

/-- C7 counterexample: `parse_data_frame` of `ld2412_cli.py` reads the
light value from offset 45 of a 46-byte frame whose byte 45 is 99 and
whose byte 17 is 7, refuting the claim that no offset other than 17 is
used for ambient light. -/
theorem c7_counterexample_offset45 :
    ¬ (∀ (frame : List Nat) (d : CliDisplay), parseFrameLd2412Cli frame = some d →
        d.lightSensor = none ∨ d.lightSensor = some (frame.getD 17 0)) := by
  intro h
  exact absurd (h c7frame ⟨0, 0, 0, 0, 0, 0, some 99⟩ (by decide)) (by decide)

/-- C7 amended: every frame decoded by the analyzer-CLI decoder has its
light value read from offset 17 (its span is always at least 21 bytes, so
the offset-17 read always fires, with 0 recorded rather than an absent
field for shorter spans); the `ld2412_cli.py` variant instead reads the
light value from offset 45 exactly when the span is longer than 45 bytes,
and shows none otherwise. -/
theorem c7_ambient_light_offsets :
    (∀ (frame : List Nat) (r : TelemetryRecordL), parseFrameCLI frame = some r →
      r.lightValue = frame.getD 17 0 ∧ 21 ≤ frame.length) ∧
    (∀ (frame : List Nat) (d : CliDisplay), parseFrameLd2412Cli frame = some d →
      d.lightSensor =
        (if 45 < frame.length then some (frame.getD 45 0) else none)) := by
  constructor
  · intro frame r h
    unfold parseFrameCLI at h
    split at h
    · exact absurd h (by simp)
    · rename_i hlen
      obtain rfl := (Option.some.inj h).symm
      refine ⟨?_, by omega⟩
      show (if 21 ≤ frame.length then frame.getD 17 0 else 0) = frame.getD 17 0
      rw [if_pos (by omega)]
  · intro frame d h
    unfold parseFrameLd2412Cli at h
    split at h
    · exact absurd h (by simp)
    · obtain rfl := (Option.some.inj h).symm
      rfl

/-- C7 witness: the offset-17 decoder applied to the 23-byte frame and the
offset-45 decoder applied to the 46-byte frame. -/
theorem c7_ambient_light_offsets_witness :
    ((⟨3, 120, 85, 150, 64, 120, 16⟩ : TelemetryRecordL).lightValue =
        goodFrame23.getD 17 0 ∧ 21 ≤ goodFrame23.length) ∧
    (⟨0, 0, 0, 0, 0, 0, some 99⟩ : CliDisplay).lightSensor =
      (if 45 < c7frame.length then some (c7frame.getD 45 0) else none) :=
  ⟨c7_ambient_light_offsets.1 goodFrame23 ⟨3, 120, 85, 150, 64, 120, 16⟩ (by decide),
   c7_ambient_light_offsets.2 c7frame ⟨0, 0, 0, 0, 0, 0, some 99⟩ (by decide)⟩

/-- C8: the feed/scan/decode/update pipeline is a pure function of the
chunk sequence: two instances started fresh and fed the identical chunks
agree on the whole final state, in particular on the record history, the
statistics and the pattern counters. -/
theorem c8_pipeline_deterministic (chunks : List (List Nat))
    (a b : AnalyzerState) (ha : a = runPipeline chunks) (hb : b = runPipeline chunks) :
    a.history = b.history ∧ a.stats = b.stats ∧ a.patterns = b.patterns ∧ a = b := by
  subst ha; subst hb
  exact ⟨rfl, rfl, rfl, rfl⟩

/-- C8 witness at a concrete chunk sequence. -/
theorem c8_pipeline_deterministic_witness :
    (runPipeline [[244]]).history = (runPipeline [[244]]).history ∧
    (runPipeline [[244]]).stats = (runPipeline [[244]]).stats ∧
    (runPipeline [[244]]).patterns = (runPipeline [[244]]).patterns ∧
    runPipeline [[244]] = runPipeline [[244]] :=
  c8_pipeline_deterministic [[244]] (runPipeline [[244]]) (runPipeline [[244]]) rfl rfl

set_option maxRecDepth 100000 in
/-- C9: each scan restarts from index 0 over the retained buffer and
consumed bytes are not removed, so a 23-byte frame fed once is decoded
again on every later feed (total-frame count 1, then 2, then 3), until a
feed pushes the buffer past 1000 bytes, after which the buffer is cut to
its trailing 500 bytes, the frame is discarded, and its count stops
growing. -/
theorem c9_frames_reprocessed_until_truncation :
    (runPipeline [goodFrame23]).stats.totalFrames = 1 ∧
    (runPipeline [goodFrame23, [0]]).stats.totalFrames = 2 ∧
    (runPipeline [goodFrame23, [0], [0]]).stats.totalFrames = 3 ∧
    (runPipeline [goodFrame23, List.replicate 990 0]).stats.totalFrames = 2 ∧
    (runPipeline [goodFrame23, List.replicate 990 0]).rawBuffer =
      List.replicate 500 0 ∧
    (runPipeline [goodFrame23, List.replicate 990 0, [0]]).stats.totalFrames = 2 := by
  decide

/-- C10: after any sequence of record pushes the min-distance statistic
equals the fold of `min` from the sentinel 9999 over the positive detection
distances seen — that is, min(9999, smallest positive distance) — hence it
never exceeds 9999; a single observed distance of 12000 leaves the same
value 9999 as a genuine 9999 cm reading, so the sentinel is
indistinguishable from it. -/
theorem c10_min_distance_sentinel (rs : List TelemetryRecord) :
    (rs.foldl updateStatistics initStats).minDistance =
      List.foldl min 9999
        ((rs.map TelemetryRecord.detectionDistance).filter (fun d => decide (0 < d))) ∧
    (rs.foldl updateStatistics initStats).minDistance ≤ 9999 ∧
    ([(⟨3, 0, 0, 0, 0, 12000⟩ : TelemetryRecord)].foldl updateStatistics
        initStats).minDistance = 9999 ∧
    ([(⟨3, 0, 0, 0, 0, 9999⟩ : TelemetryRecord)].foldl updateStatistics
        initStats).minDistance = 9999 := by
  refine ⟨foldl_update_minDistance rs initStats, ?_, by decide, by decide⟩
  rw [foldl_update_minDistance rs initStats]
  exact foldl_min_le _ 9999

end LD2412
